import Mathlib

/-!
Shallow embedding of the `dirty` crate (`src/lib.rs`): a generic wrapper
`Dirty<T>` holding a value together with a boolean dirty flag, with
operations `new`, `new_clean`, `dirty`, `write`, `read`, `clear`,
`read_dirty`, `write_dirty`, `unwrap`, and a `Deref` impl.

Rust's `&mut self` methods are embedded as pure state transformers
returning the updated cell; `&self` methods are pure functions of the
cell.  The mutable handle returned by `write()` is embedded by the
operations `writeSet` (store a value through the handle) and `write`
itself (take the handle without storing, which still sets the flag).
-/

/-- `struct Dirty<T> { value: T, dirty: bool }` (src/lib.rs lines 7-10). -/
structure Dirty (T : Type) where
  value : T
  dirty : Bool

namespace Dirty

/-- `Dirty::new(val)`: wrap `val` with the dirty flag set (lines 14-19). -/
def new {T : Type} (val : T) : Dirty T :=
  { value := val, dirty := true }

/-- `Dirty::new_clean(val)`: wrap `val` with the dirty flag clear (lines 22-27). -/
def new_clean {T : Type} (val : T) : Dirty T :=
  { value := val, dirty := false }

/-- `write(&mut self) -> &mut T` (lines 35-38): the call itself sets the
dirty flag; this models the effect of the call when nothing is stored
through the returned handle. -/
def write {T : Type} (c : Dirty T) : Dirty T :=
  { c with dirty := true }

/-- Storing `v` through the handle returned by `write()`: the call set the
flag, then the assignment through `&mut T` replaces the value. -/
def writeSet {T : Type} (c : Dirty T) (v : T) : Dirty T :=
  { c.write with value := v }

/-- `read(&self) -> &T` (lines 41-43). -/
def read {T : Type} (c : Dirty T) : T :=
  c.value

/-- `clear(&mut self)` (lines 46-48): clears the dirty flag. -/
def clear {T : Type} (c : Dirty T) : Dirty T :=
  { c with dirty := false }

/-- `read_dirty(&self) -> Option<&T>` (lines 51-56). -/
def read_dirty {T : Type} (c : Dirty T) : Option T :=
  match c.dirty with
  | true => some c.value
  | false => none

/-- `write_dirty(&mut self, f) -> bool` (lines 59-63): if dirty, replace
the value by `f value`; then return the (unchanged) flag.  The returned
pair is (returned bool, updated cell). -/
def write_dirty {T : Type} (c : Dirty T) (f : T → T) : Bool × Dirty T :=
  let c2 := if c.dirty then { c with value := f c.value } else c
  (c2.dirty, c2)

/-- `unwrap(self) -> T` (lines 66-68): consume the cell, return the value. -/
def unwrap {T : Type} (c : Dirty T) : T :=
  c.value

/-- `Deref::deref(&self) -> &T` (lines 71-76). -/
def deref {T : Type} (c : Dirty T) : T :=
  c.value

/-- `read` takes `&self`: a call leaves the cell's state unchanged.  The
step wrapper makes the borrow explicit: result paired with the state
after the call. -/
def readStep {T : Type} (c : Dirty T) : T × Dirty T :=
  (c.read, c)

/-- `deref` takes `&self`: result paired with the state after the call. -/
def derefStep {T : Type} (c : Dirty T) : T × Dirty T :=
  (c.deref, c)

/-- `read_dirty` takes `&self`: result paired with the state after the call. -/
def readDirtyStep {T : Type} (c : Dirty T) : Option T × Dirty T :=
  (c.read_dirty, c)

/-- `#[derive(PartialEq, Eq)]` on `Dirty` (line 6): field-by-field
equality, comparing `value` and then `dirty`. -/
def beq {T : Type} [BEq T] (a b : Dirty T) : Bool :=
  a.value == b.value && a.dirty == b.dirty

/-- `#[derive(Default)]` on `Dirty` (line 6): each field takes its type's
default; `bool::default()` is `false`. -/
def defaultCell {T : Type} [Inhabited T] : Dirty T :=
  { value := Inhabited.default, dirty := false }

end Dirty

/-- C1: `write_if_dirty(f)` returns the dirty flag's value as it was
before the call; the flag is unchanged by the call; if the prior flag
was true the value becomes `f` of the previous value, otherwise the
value is unchanged. -/
theorem writeDirty_spec {T : Type} (c : Dirty T) (f : T → T) :
    (c.write_dirty f).1 = c.dirty ∧
    (c.write_dirty f).2.dirty = c.dirty ∧
    (c.write_dirty f).2.value = (if c.dirty then f c.value else c.value) := by
  cases c with
  | mk v d => cases d <;> simp [Dirty.write_dirty]

/-- C2: `read_if_dirty()` returns `some` of the current value iff the
flag is true, returns `none` iff the flag is false, and the call leaves
the cell (value and flag) unchanged. -/
theorem readDirty_spec {T : Type} (c : Dirty T) :
    (c.read_dirty = some c.value ↔ c.dirty = true) ∧
    (c.read_dirty = none ↔ c.dirty = false) ∧
    (c.readDirtyStep).2 = c := by
  cases c with
  | mk v d => cases d <;> simp [Dirty.read_dirty, Dirty.readDirtyStep]

/-- C3: after `write()` the flag is true regardless of the prior state,
both when nothing is stored through the returned handle (in which case
the value is unchanged) and when a value `v` is stored through it. -/
theorem write_sets_flag {T : Type} (c : Dirty T) :
    c.write.dirty = true ∧
    c.write.value = c.value ∧
    ∀ v : T, (c.writeSet v).dirty = true ∧ (c.writeSet v).value = v := by
  refine ⟨rfl, rfl, fun v => ⟨rfl, rfl⟩⟩

/-- C4: `clear()` sets the dirty flag to false and leaves the contained
value unchanged. -/
theorem clear_spec {T : Type} (c : Dirty T) :
    c.clear.dirty = false ∧ c.clear.value = c.value :=
  ⟨rfl, rfl⟩

/-- C5: the dirty-by-default constructor wraps `v` with the flag true;
the clean constructor wraps `v` with the flag false. -/
theorem constructors_spec {T : Type} (v : T) :
    (Dirty.new v).dirty = true ∧ (Dirty.new v).value = v ∧
    (Dirty.new_clean v).dirty = false ∧ (Dirty.new_clean v).value = v :=
  ⟨rfl, rfl, rfl, rfl⟩

/-- C6: the derived equality compares both fields: two cells are equal
iff their values are equal and their flags are equal; in particular two
cells with the same value but different flags are unequal. -/
theorem beq_structural {T : Type} [BEq T] [LawfulBEq T] (a b : Dirty T) :
    (Dirty.beq a b = true ↔ a.value = b.value ∧ a.dirty = b.dirty) ∧
    ∀ v : T, Dirty.beq (Dirty.mk v true) (Dirty.mk v false) = false := by
  constructor
  · simp [Dirty.beq]
  · intro v
    simp [Dirty.beq]

/-- Witness for C6 at `T = Nat`, cells `⟨3, true⟩` and `⟨3, false⟩`. -/
theorem beq_structural_witness :
    Dirty.beq (Dirty.mk (3 : Nat) true) (Dirty.mk 3 false) = false :=
  (beq_structural (Dirty.mk (3 : Nat) true) (Dirty.mk 3 false)).2 3

/-- C7: the default-constructed cell contains the type's default value
and has its flag false (clean). -/
theorem default_spec {T : Type} [Inhabited T] :
    (Dirty.defaultCell : Dirty T).dirty = false ∧
    (Dirty.defaultCell : Dirty T).value = Inhabited.default :=
  ⟨rfl, rfl⟩

/-- C8: `unwrap()` returns exactly the contained value: for any cell it
yields the `value` field, so after `construct-dirty(v)` it yields `v`
and after storing `w` through `write()` it yields `w`. -/
theorem unwrap_spec {T : Type} (c : Dirty T) (v w : T) :
    c.unwrap = c.value ∧
    (Dirty.new v).unwrap = v ∧
    (c.writeSet w).unwrap = w :=
  ⟨rfl, rfl, rfl⟩

/-- C9: `read()` and the deref access both return the contained value,
and iterating either call any number of times leaves the cell (value
and flag) unchanged. -/
theorem read_pure {T : Type} (c : Dirty T) :
    (c.readStep).1 = c.value ∧
    (c.derefStep).1 = c.value ∧
    ∀ n : Nat,
      (fun s : Dirty T => (s.readStep).2)^[n] c = c ∧
      (fun s : Dirty T => (s.derefStep).2)^[n] c = c := by
  refine ⟨rfl, rfl, fun n => ⟨?_, ?_⟩⟩ <;>
    exact Function.iterate_fixed rfl n

/-- C10: clearing a dirty-constructed cell yields exactly the cell the
clean constructor produces: `clear (new v) = new_clean v`. -/
theorem clear_new_eq_new_clean {T : Type} (v : T) :
    (Dirty.new v).clear = Dirty.new_clean v :=
  rfl
